import Mathlib

/-!
Verification of the decision logic of `src/backend/app.py` (NetraAI Flask
backend): the region extractor, the plate-candidate filter, the candidate
selector, the rule-based chatbot, and the four HTTP endpoints.

Modelling conventions:
* Python strings are modelled as `List Char` (`PyStr`); only ASCII behaviour
  of `str.upper`, `str.lower`, `str.strip` is relevant to the data handled
  here, so the per-character ASCII case maps are used.
* Python floats are modelled as rationals `ℚ`: the code only ever compares
  confidences with `>` / `max`, never does float arithmetic on them.
* Calls into the external collaborators (YOLOv5, EasyOCR, cv2/base64 decode,
  gTTS) are parameters of the model: an `Option` result where `none` models
  the call raising an exception (caught by the surrounding `try`/`except`).
-/

/-- Python strings, as lists of characters. -/
abbrev PyStr := List Char

/-- `needle` is a prefix of `haystack` (character-wise). -/
def listStartsWith : PyStr → PyStr → Bool
  | [], _ => true
  | _ :: _, [] => false
  | a :: as, b :: bs => a == b && listStartsWith as bs

/-- Python's substring test `needle in haystack`. -/
def containsSub (needle : PyStr) : PyStr → Bool
  | [] => listStartsWith needle []
  | b :: bs => listStartsWith needle (b :: bs) || containsSub needle bs

/-- `c` is in `[A-Z0-9]` (ASCII 65–90 or 48–57), the charset kept by
`re.sub(r'[^A-Z0-9]', '', ...)` in `extract_license_plate_text`. -/
def isAZ09 (c : Char) : Bool :=
  (65 ≤ c.toNat && c.toNat ≤ 90) || (48 ≤ c.toNat && c.toNat ≤ 57)

/-- ASCII per-character `str.upper`: `'a'`–`'z'` (97–122) map down by 32. -/
def pyUpperChar (c : Char) : Char :=
  if 97 ≤ c.toNat ∧ c.toNat ≤ 122 then Char.ofNat (c.toNat - 32) else c

/-- ASCII per-character `str.lower`: `'A'`–`'Z'` (65–90) map up by 32. -/
def pyLowerChar (c : Char) : Char :=
  if 65 ≤ c.toNat ∧ c.toNat ≤ 90 then Char.ofNat (c.toNat + 32) else c

/-- Python `str.lower()` (ASCII). -/
def pyLower (s : PyStr) : PyStr := s.map pyLowerChar

/-- ASCII whitespace stripped by Python `str.strip()`:
space, `\t`, `\n`, `\r`, `\x0b`, `\x0c`. -/
def isPyWhitespace (c : Char) : Bool :=
  c.toNat == 32 || c.toNat == 9 || c.toNat == 10 || c.toNat == 13 ||
  c.toNat == 11 || c.toNat == 12

/-- Python `str.strip()` (ASCII whitespace). -/
def pyStrip (s : PyStr) : PyStr :=
  ((s.dropWhile isPyWhitespace).reverse.dropWhile isPyWhitespace).reverse

/-- Line 97 of `app.py`: `re.sub(r'[^A-Z0-9]', '', text.upper())` —
uppercase, then strip every character outside `[A-Z0-9]`. -/
def normalizeText (t : PyStr) : PyStr :=
  (t.map pyUpperChar).filter isAZ09

/-- `re.match(r'^[A-Z0-9]+$', s)` succeeds: `s` is non-empty and every
character is in `[A-Z0-9]`. -/
def matchesAZ09 (s : PyStr) : Bool :=
  !s.isEmpty && s.all isAZ09

/-- One raw EasyOCR result `(bbox, text, confidence)`. -/
structure OcrResult where
  bbox : List (Int × Int)
  text : PyStr
  confidence : ℚ
deriving DecidableEq

/-- One entry of the `license_plates` list built by
`extract_license_plate_text`. -/
structure PlateCandidate where
  text : PyStr
  confidence : ℚ
  bbox : List (Int × Int)
deriving DecidableEq

/-- The body of the `for (bbox, text, confidence) in results` loop of
`extract_license_plate_text` (lines 94–105): keep the result only when
`confidence > 0.5` and the cleaned text has length in `[4,12]` and matches
`^[A-Z0-9]+$`. -/
def candidateOf (r : OcrResult) : Option PlateCandidate :=
  if (1 : ℚ)/2 < r.confidence then
    if 4 ≤ (normalizeText r.text).length ∧ (normalizeText r.text).length ≤ 12 ∧
        matchesAZ09 (normalizeText r.text) then
      some ⟨normalizeText r.text, r.confidence, r.bbox⟩
    else
      none
  else
    none

/-- `extract_license_plate_text` (lines 86–110): run the recognizer
(`none` models `reader.readtext` raising, caught at line 108 → `[]`),
then filter and clean the results in order. -/
def extract_license_plate_text (results : Option (List OcrResult)) :
    List PlateCandidate :=
  match results with
  | none => []
  | some rs => rs.filterMap candidateOf

lemma pyUpperChar_of_isAZ09 {c : Char} (h : isAZ09 c = true) :
    pyUpperChar c = c := by
  simp only [isAZ09, Bool.or_eq_true, Bool.and_eq_true, decide_eq_true_eq] at h
  simp only [pyUpperChar, ite_eq_right_iff]
  intro hc
  omega

lemma normalizeText_all_isAZ09 (t : PyStr) :
    ∀ c ∈ normalizeText t, isAZ09 c = true := by
  intro c hc
  exact (List.mem_filter.mp hc).2

/-- **C6.** Text normalization (uppercase then strip every character outside
`[A-Z0-9]`) is idempotent: normalizing an already-normalized string returns
it unchanged. -/
theorem c6_normalize_idempotent (s : PyStr) :
    normalizeText (normalizeText s) = normalizeText s := by
  have hmap : ∀ l : PyStr, (∀ c ∈ l, isAZ09 c = true) → l.map pyUpperChar = l := by
    intro l
    induction l with
    | nil => intro _; rfl
    | cons a as ih =>
      intro h
      simp only [List.map_cons, List.cons.injEq]
      exact ⟨pyUpperChar_of_isAZ09 (h a (List.mem_cons_self a as)),
             ih (fun c hc => h c (List.mem_cons_of_mem a hc))⟩
  have hfilter : (normalizeText s).filter isAZ09 = normalizeText s :=
    List.filter_eq_self.mpr (normalizeText_all_isAZ09 s)
  calc normalizeText (normalizeText s)
      = ((normalizeText s).map pyUpperChar).filter isAZ09 := rfl
    _ = (normalizeText s).filter isAZ09 := by
          rw [hmap (normalizeText s) (normalizeText_all_isAZ09 s)]
    _ = normalizeText s := hfilter

lemma candidateOf_eq_none_of_low {r : OcrResult} (h : r.confidence ≤ (1 : ℚ)/2) :
    candidateOf r = none := by
  simp only [candidateOf, ite_eq_right_iff]
  intro hlt
  exact absurd hlt (not_lt.mpr h)

lemma candidateOf_low_of_some {r : OcrResult} {c : PlateCandidate}
    (h : candidateOf r = some c) : (1 : ℚ)/2 < r.confidence := by
  by_contra hle
  rw [candidateOf_eq_none_of_low (not_lt.mp hle)] at h
  exact Option.noConfusion h

/-- **C4.** A raw recognizer result with confidence ≤ 0.5 never contributes a
candidate: its loop body yields nothing, and every candidate in the filter's
output comes from some result whose confidence is strictly greater than 0.5. -/
theorem c4_low_confidence_filtered (rs : List OcrResult) (r : OcrResult)
    (h : r.confidence ≤ (1 : ℚ)/2) :
    candidateOf r = none ∧
    ∀ c ∈ extract_license_plate_text (some rs),
      ∃ s ∈ rs, candidateOf s = some c ∧ (1 : ℚ)/2 < s.confidence := by
  refine ⟨candidateOf_eq_none_of_low h, ?_⟩
  intro c hc
  simp only [extract_license_plate_text] at hc
  obtain ⟨s, hs, hsc⟩ := List.mem_filterMap.mp hc
  exact ⟨s, hs, hsc, candidateOf_low_of_some hsc⟩

/-- Closed instance of `c4_low_confidence_filtered`: a result with confidence
exactly 0.5 is discarded. -/
theorem c4_low_confidence_filtered_witness :
    (⟨[], "AB12".data, (1 : ℚ)/2⟩ : OcrResult).confidence ≤ (1 : ℚ)/2 ∧
    candidateOf ⟨[], "AB12".data, (1 : ℚ)/2⟩ = none :=
  ⟨le_refl _, (c4_low_confidence_filtered [] ⟨[], "AB12".data, (1 : ℚ)/2⟩ (le_refl _)).1⟩

lemma candidateOf_shape {r : OcrResult} {c : PlateCandidate}
    (h : candidateOf r = some c) :
    4 ≤ c.text.length ∧ c.text.length ≤ 12 ∧ matchesAZ09 c.text = true := by
  simp only [candidateOf] at h
  split at h
  · split at h
    · rename_i hcond
      obtain ⟨h4, h12, hm⟩ := hcond
      cases h
      exact ⟨h4, h12, hm⟩
    · exact Option.noConfusion h
  · exact Option.noConfusion h

/-- **C5.** Every candidate emitted by the filter has text of length within
`[4,12]` matching `^[A-Z0-9]+$` (non-empty, all characters in `[A-Z0-9]`). -/
theorem c5_candidate_invariant (results : Option (List OcrResult))
    (c : PlateCandidate) (hc : c ∈ extract_license_plate_text results) :
    4 ≤ c.text.length ∧ c.text.length ≤ 12 ∧
    c.text ≠ [] ∧ c.text.all isAZ09 = true := by
  match results with
  | none => exact absurd hc (List.not_mem_nil c)
  | some rs =>
    simp only [extract_license_plate_text] at hc
    obtain ⟨s, _, hsc⟩ := List.mem_filterMap.mp hc
    obtain ⟨h4, h12, hm⟩ := candidateOf_shape hsc
    simp only [matchesAZ09, Bool.and_eq_true] at hm
    refine ⟨h4, h12, ?_, hm.2⟩
    intro he
    rw [he] at hm
    simp at hm

/-- Closed instance of `c5_candidate_invariant` at a concrete recognizer
result that survives the filter. -/
theorem c5_candidate_invariant_witness :
    (⟨"AB12".data, (9 : ℚ)/10, []⟩ : PlateCandidate) ∈
      extract_license_plate_text (some [⟨[], "ab1 2#".data, (9 : ℚ)/10⟩]) ∧
    4 ≤ ("AB12".data : PyStr).length ∧ ("AB12".data : PyStr).length ≤ 12 ∧
    ("AB12".data : PyStr) ≠ [] ∧ ("AB12".data : PyStr).all isAZ09 = true := by
  have hcand : candidateOf ⟨[], "ab1 2#".data, (9 : ℚ)/10⟩ =
      some ⟨"AB12".data, (9 : ℚ)/10, []⟩ := by
    have hgt : (1 : ℚ)/2 < 9/10 := by norm_num
    have hnorm : normalizeText "ab1 2#".data = "AB12".data := by decide
    simp only [candidateOf, hnorm, if_pos hgt]
    rw [if_pos (by decide)]
  have hmem : (⟨"AB12".data, (9 : ℚ)/10, []⟩ : PlateCandidate) ∈
      extract_license_plate_text (some [⟨[], "ab1 2#".data, (9 : ℚ)/10⟩]) := by
    simp only [extract_license_plate_text, List.filterMap_cons, hcand,
      List.filterMap_nil]
    exact List.mem_singleton.mpr rfl
  have h := c5_candidate_invariant (some [⟨[], "ab1 2#".data, (9 : ℚ)/10⟩])
    ⟨"AB12".data, (9 : ℚ)/10, []⟩ hmem
  exact ⟨hmem, h⟩

/-- One comparison step of Python's `max(..., key=lambda x: x['confidence'])`
(line 138): the running best is replaced only on a strictly greater key. -/
def maxStep (best x : PlateCandidate) : PlateCandidate :=
  if best.confidence < x.confidence then x else best

/-- `max(all_detections, key=lambda x: x['confidence'])` when the list is
non-empty, `None` standing for the empty-list branch of lines 137/145. -/
def maxByConfidence : List PlateCandidate → Option PlateCandidate
  | [] => none
  | c :: cs => some (cs.foldl maxStep c)

lemma foldl_maxStep_of_le {l : List PlateCandidate} {acc : PlateCandidate}
    (h : ∀ x ∈ l, x.confidence ≤ acc.confidence) :
    l.foldl maxStep acc = acc := by
  induction l with
  | nil => rfl
  | cons a as ih =>
    have ha : maxStep acc a = acc := by
      simp only [maxStep, ite_eq_right_iff]
      intro hlt
      exact absurd hlt (not_lt.mpr (h a (List.mem_cons_self a as)))
    simp only [List.foldl_cons, ha]
    exact ih (fun x hx => h x (List.mem_cons_of_mem a hx))

lemma foldl_maxStep_mem (l : List PlateCandidate) (acc : PlateCandidate) :
    l.foldl maxStep acc = acc ∨ l.foldl maxStep acc ∈ l := by
  induction l generalizing acc with
  | nil => exact Or.inl rfl
  | cons a as ih =>
    simp only [List.foldl_cons]
    rcases ih (maxStep acc a) with h | h
    · rw [h]
      by_cases hlt : acc.confidence < a.confidence
      · exact Or.inr (by simp [maxStep, hlt])
      · exact Or.inl (by simp [maxStep, hlt])
    · exact Or.inr (List.mem_cons_of_mem a h)

/-- **C2.** The selector returns the candidate of maximum confidence, with
ties broken by first-seen order: whenever everything before `c` has strictly
smaller confidence and everything after has confidence ≤ `c`'s, the selector
applied to the whole list returns exactly `c`. -/
theorem c2_selector_first_max (l₁ : List PlateCandidate) (c : PlateCandidate)
    (l₂ : List PlateCandidate)
    (hbefore : ∀ x ∈ l₁, x.confidence < c.confidence)
    (hafter : ∀ x ∈ l₂, x.confidence ≤ c.confidence) :
    maxByConfidence (l₁ ++ c :: l₂) = some c := by
  match l₁ with
  | [] =>
    simp only [List.nil_append, maxByConfidence]
    rw [foldl_maxStep_of_le hafter]
  | a :: l₁ =>
    simp only [List.cons_append, maxByConfidence, List.foldl_append,
      List.foldl_cons, Option.some.injEq]
    have hacc : ∀ acc : PlateCandidate, acc.confidence < c.confidence →
        (l₁.foldl maxStep acc).confidence < c.confidence := by
      intro acc hacclt
      rcases foldl_maxStep_mem l₁ acc with h | h
      · rw [h]; exact hacclt
      · exact hbefore _ (List.mem_cons_of_mem a h)
    have ha : (l₁.foldl maxStep a).confidence < c.confidence :=
      hacc a (hbefore a (List.mem_cons_self a l₁))
    have hswitch : maxStep (l₁.foldl maxStep a) c = c := by
      simp [maxStep, ha]
    rw [hswitch]
    exact foldl_maxStep_of_le hafter

/-- Closed instance of `c2_selector_first_max`: among candidates with
confidences `[0.6, 0.9, 0.75]`, the one with confidence `0.9` is selected. -/
theorem c2_selector_first_max_witness :
    maxByConfidence
      [⟨"KA01AB1234".data, (6 : ℚ)/10, []⟩,
       ⟨"MH12CD5678".data, (9 : ℚ)/10, []⟩,
       ⟨"DL05EF9012".data, (3 : ℚ)/4, []⟩] =
      some ⟨"MH12CD5678".data, (9 : ℚ)/10, []⟩ := by
  have h := c2_selector_first_max [⟨"KA01AB1234".data, (6 : ℚ)/10, []⟩]
    ⟨"MH12CD5678".data, (9 : ℚ)/10, []⟩ [⟨"DL05EF9012".data, (3 : ℚ)/4, []⟩]
    (by
      intro x hx
      rw [List.mem_singleton.mp hx]
      norm_num)
    (by
      intro x hx
      rw [List.mem_singleton.mp hx]
      norm_num)
  exact h

/-- An OpenCV image: a list of pixel rows (pixel values as `Nat`). -/
structure Img where
  rows : List (List Nat)
deriving DecidableEq

/-- One row of `results.pandas().xyxy[0]` after the conversions applied at
lines 67–69: `int(class)`, float confidence, `int()`-truncated box corners. -/
structure Detection where
  cls : Int
  confidence : ℚ
  xmin : Int
  ymin : Int
  xmax : Int
  ymax : Int
deriving DecidableEq

/-- Clamp an index of a Python slice `l[a:b]` into `[0, n]`: negative
indices count from the end, out-of-range indices are clamped. -/
def npClamp (n : Nat) (i : Int) : Nat :=
  if i < 0 then (n + i).toNat else min i.toNat n

/-- NumPy basic slice `l[a:b]` (no step), with Python clamping semantics. -/
def npSlice {α : Type} (l : List α) (a b : Int) : List α :=
  (l.take (npClamp l.length b)).drop (npClamp l.length a)

/-- Lines 69–74: crop the image to the detection's bounding box
(`image[y1:y2, x1:x2]`), then keep the bottom 40% of the crop
(`vehicle_region[int(height * 0.6):, :]`). The float factor `0.6` is
modelled as the rational `3/5`, so `int(height * 0.6)` is `3 * height / 5`
(truncating division on naturals). -/
def cropLower (img : Img) (d : Detection) : Img :=
  let vehicleRows := (npSlice img.rows d.ymin d.ymax).map
    (fun row => npSlice row d.xmin d.xmax)
  ⟨vehicleRows.drop (3 * vehicleRows.length / 5)⟩

/-- COCO class ids kept at line 61: car, bus, truck. -/
def vehicle_classes : List Int := [2, 5, 7]

/-- The filter condition at line 67: vehicle class and confidence above 0.5. -/
def qualifies (d : Detection) : Bool :=
  vehicle_classes.contains d.cls && decide ((1 : ℚ)/2 < d.confidence)

/-- `detect_license_plate_region` (lines 50–84). `modelLoaded = false` models
`model is None`; `inference = none` models the YOLOv5 call raising (caught at
line 82 → whole image); otherwise the qualifying detections are cropped in
order and, when none qualify, the whole image is the single region. -/
def detect_license_plate_region (modelLoaded : Bool)
    (inference : Option (List Detection)) (img : Img) : List Img :=
  if !modelLoaded then [img]
  else
    match inference with
    | none => [img]
    | some dets =>
      let regions := (dets.filter qualifies).map (cropLower img)
      if regions.isEmpty then [img] else regions

/-- **C1.** Whenever there are zero qualifying detections — the model is
unavailable, the inference call raises, or no detection has a vehicle class
with confidence above 0.5 — the region extractor returns exactly one region,
the full input image. -/
theorem c1_region_fallback (modelLoaded : Bool)
    (inference : Option (List Detection)) (img : Img)
    (h : modelLoaded = false ∨ inference = none ∨
      ∀ dets, inference = some dets → ∀ d ∈ dets, qualifies d = false) :
    detect_license_plate_region modelLoaded inference img = [img] := by
  rcases h with h | h | h
  · simp [detect_license_plate_region, h]
  · simp [detect_license_plate_region, h]
  · match modelLoaded with
    | false => simp [detect_license_plate_region]
    | true =>
      match inference with
      | none => simp [detect_license_plate_region]
      | some dets =>
        have hfilter : dets.filter qualifies = [] :=
          List.filter_eq_nil_iff.mpr (fun d hd => by simp [h dets rfl d hd])
        simp [detect_license_plate_region, hfilter]

/-- Closed instance of `c1_region_fallback`: a loaded model whose inference
returns one low-confidence car detection still falls back to the whole
image. -/
theorem c1_region_fallback_witness :
    detect_license_plate_region true
      (some [⟨2, (2 : ℚ)/5, 0, 0, 4, 4⟩]) ⟨[[1, 2], [3, 4]]⟩ =
      [⟨[[1, 2], [3, 4]]⟩] := by
  apply c1_region_fallback
  refine Or.inr (Or.inr ?_)
  intro dets hdets d hd
  cases hdets
  rw [List.mem_singleton.mp hd]
  simp only [qualifies, vehicle_classes, Bool.and_eq_false_iff]
  right
  rw [decide_eq_false_iff_not]
  norm_num

/-- The canned reply of the `'how to book cab'` rule (line 168). -/
def bookCabReply : PyStr :=
  "Say \"Book a cab\" or tap the Book Ride button. I will generate a cab booking for you.".data

/-- The `responses` dict of the `chatbot` endpoint (lines 164–174), in
insertion order (Python dicts preserve it and the scan at line 178 follows
it). -/
def responsesTable : List (PyStr × PyStr) :=
  [("where is my cab".data,
    "Your cab should arrive in 2-3 minutes. Please wait at the pickup location.".data),
   ("what does this app do".data,
    "Netra AI helps visually impaired users book cabs, detect license plates, navigate, and get assistance through voice commands.".data),
   ("help me".data,
    "I can help you with: booking a cab, scanning license plates, navigation, or answering questions. Just ask!".data),
   ("how to book cab".data, bookCabReply),
   ("how to scan plate".data,
    "Say \"Scan license plate\" or tap the Scan Plate button to open the camera and detect license plates.".data),
   ("navigation help".data,
    "Use the Navigate button to get voice-guided directions to your destination.".data),
   ("app features".data,
    "Key features include voice commands, cab booking, license plate detection, navigation, and AI assistance.".data),
   ("emergency".data,
    "For emergencies, please contact local emergency services immediately. This app provides mobility assistance only.".data),
   ("voice commands".data,
    "Available commands: \"Book a cab\", \"Scan license plate\", \"Navigate me\", \"Help me\", \"Where is my cab\"".data)]

/-- The default reply for unrecognized queries (line 185). -/
def defaultReply : PyStr :=
  "I\x27m here to help with cab booking, license plate detection, and navigation. Try asking \x27What does this app do?\x27 or \x27Help me\x27 for more information.".data

/-- The scan at lines 177–181: first key that is a substring of the query. -/
def findResponse : List (PyStr × PyStr) → PyStr → Option PyStr
  | [], _ => none
  | (k, v) :: rest, q => if containsSub k q then some v else findResponse rest q

/-- The chatbot's reply for a raw query string: normalize (line 161:
`.lower().strip()`), scan the table, fall back to the default reply. -/
def chatbotResponse (query : PyStr) : PyStr :=
  match findResponse responsesTable (pyStrip (pyLower query)) with
  | some r => r
  | none => defaultReply

/-- Counterexample to **C3** as stated: the normalized query
`"how do i book a cab"` does not contain the pattern `"how to book cab"`
(nor any other key), so the chatbot returns the default reply, not the
booking rule's canned response. -/
theorem c3_counterexample :
    chatbotResponse "How do I book a cab".data = defaultReply ∧
    defaultReply ≠ bookCabReply := by
  constructor
  · decide
  · decide

/-- **C3 (amended).** A query that literally contains `"how to book cab"`
returns that rule's exact canned response; `"How do I book a cab"` does not
contain the pattern and returns the default reply, as does `"banana"`. -/
theorem c3_amended_chatbot_rules :
    chatbotResponse "How to book cab".data = bookCabReply ∧
    chatbotResponse "banana".data = defaultReply ∧
    chatbotResponse "How do I book a cab".data = defaultReply := by
  refine ⟨by decide, by decide, by decide⟩

/-- A parsed JSON value, as returned by `request.get_json()` (`null` models
Python `None`). -/
inductive Json where
  | null : Json
  | bool : Bool → Json
  | num : ℚ → Json
  | str : PyStr → Json
  | arr : List Json → Json
  | obj : List (PyStr × Json) → Json

/-- The outcome of one endpoint call: a 200 JSON response, a 400 with an
error message, a 500 (`except Exception` at the endpoint boundary — the
message is the runtime exception's string), or a 200 `send_file` stream. -/
inductive Result where
  | ok : Json → Result
  | clientError : PyStr → Result
  | serverError : Result
  | fileResponse : Nat → PyStr → PyStr → Result

/-- The HTTP status code attached to a `Result`. -/
def statusOf : Result → Nat
  | Result.ok _ => 200
  | Result.clientError _ => 400
  | Result.serverError => 500
  | Result.fileResponse _ _ _ => 200

/-- Python `dict.get` on the parsed JSON object (keys are unique in a JSON
object, so first-match lookup is `dict` lookup). -/
def pyDictGet (kvs : List (PyStr × Json)) (k : PyStr) : Option Json :=
  match kvs with
  | [] => none
  | (k0, v) :: rest => if k0 == k then some v else pyDictGet rest k

/-- The 200 body built at lines 187–191 for a raw query string `raw`:
success, the chatbot's reply, and the normalized query echoed back. -/
def chatbotOkJson (raw : PyStr) : Json :=
  Json.obj [("success".data, Json.bool true),
            ("response".data, Json.str (chatbotResponse raw)),
            ("query".data, Json.str (pyStrip (pyLower raw)))]

/-- The `/chatbot` endpoint (lines 156–195). `data.get('query', '')` needs
`data` to be a dict and the value (when present) to be a string: on any
other body the attribute access (`.get` on a non-dict, `.lower()` on a
non-string) raises, is caught at line 193, and becomes a 500. -/
def chatbot (body : Json) : Result :=
  match body with
  | Json.obj kvs =>
    match pyDictGet kvs "query".data with
    | none => Result.ok (chatbotOkJson [])
    | some (Json.str s) => Result.ok (chatbotOkJson s)
    | some _ => Result.serverError
  | _ => Result.serverError

lemma findResponse_mem :
    ∀ (t : List (PyStr × PyStr)) (q v : PyStr),
      findResponse t q = some v → v ∈ t.map Prod.snd := by
  intro t
  induction t with
  | nil => intro q v h; exact Option.noConfusion h
  | cons kv rest ih =>
    intro q v h
    match kv with
    | (k, r) =>
      simp only [findResponse] at h
      split at h
      · cases h
        exact List.mem_cons_self _ _
      · exact List.mem_cons_of_mem _ (ih q v h)

lemma chatbotResponse_ne_nil (raw : PyStr) : chatbotResponse raw ≠ [] := by
  unfold chatbotResponse
  cases hfind : findResponse responsesTable (pyStrip (pyLower raw)) with
  | none => decide
  | some v =>
    have hv := findResponse_mem responsesTable (pyStrip (pyLower raw)) v hfind
    have : ∀ w ∈ responsesTable.map Prod.snd, w ≠ ([] : PyStr) := by decide
    exact this v hv

/-- Counterexample to **C10** as stated: a JSON request body that is an
array (not an object) makes `data.get('query', '')` raise, and the endpoint
answers 500, not a success response. -/
theorem c10_counterexample :
    chatbot (Json.arr []) = Result.serverError ∧
    statusOf (chatbot (Json.arr [])) = 500 :=
  ⟨rfl, rfl⟩

/-- **C10 (amended).** For every JSON *object* request body whose `query`
value, when present, is a string — in particular an object with no `query`
field — the endpoint returns success with a non-empty reply and echoes the
normalized query; a missing `query` field is treated as the empty query and
yields the default reply. -/
theorem c10_amended_object_body (kvs : List (PyStr × Json))
    (h : pyDictGet kvs "query".data = none ∨
      ∃ s, pyDictGet kvs "query".data = some (Json.str s)) :
    ∃ raw, chatbot (Json.obj kvs) = Result.ok (chatbotOkJson raw) ∧
      statusOf (chatbot (Json.obj kvs)) = 200 ∧
      chatbotResponse raw ≠ [] ∧
      (pyDictGet kvs "query".data = none → raw = [] ∧
        chatbotResponse raw = defaultReply) := by
  rcases h with h | ⟨s, h⟩
  · refine ⟨[], ?_, ?_, chatbotResponse_ne_nil [], fun _ => ⟨rfl, by decide⟩⟩
    · simp [chatbot, h]
    · simp [chatbot, h, statusOf]
  · refine ⟨s, ?_, ?_, chatbotResponse_ne_nil s, fun hnone => ?_⟩
    · simp [chatbot, h]
    · simp [chatbot, h, statusOf]
    · rw [hnone] at h
      exact Option.noConfusion h

/-- Closed instance of `c10_amended_object_body`: the empty JSON object (no
`query` field) gets the default reply with status 200. -/
theorem c10_amended_object_body_witness :
    pyDictGet [] "query".data = none ∧
    ∃ raw, chatbot (Json.obj []) = Result.ok (chatbotOkJson raw) ∧
      statusOf (chatbot (Json.obj [])) = 200 ∧
      chatbotResponse raw ≠ [] ∧
      (pyDictGet [] "query".data = none → raw = [] ∧
        chatbotResponse raw = defaultReply) :=
  ⟨rfl, c10_amended_object_body [] (Or.inl rfl)⟩

/-- The external collaborators of `/detect_plate`, as black boxes:
`modelLoaded` is `model is not None`; `inference` is the YOLOv5 call
(`none` = raises); `ocr` is `reader.readtext` (`none` = raises);
`decodeImage` is `preprocess_image` (lines 34–48), whose internal
`try`/`except` already turns every failure into `None`. -/
structure Env where
  modelLoaded : Bool
  inference : Img → Option (List Detection)
  ocr : Img → Option (List OcrResult)
  decodeImage : Json → Option Img

/-- The `all_detections` accumulation loop of lines 129–134: regions in
order, each region's candidate list appended by `extend`. -/
def allDetections (env : Env) (img : Img) : List PlateCandidate :=
  (detect_license_plate_region env.modelLoaded (env.inference img) img).foldl
    (fun acc region => acc ++ extract_license_plate_text (env.ocr region)) []

/-- The success body of lines 139–144. -/
def detectSuccessJson (best : PlateCandidate) (all : List PlateCandidate) : Json :=
  Json.obj [("success".data, Json.bool true),
            ("license_plate".data, Json.str best.text),
            ("confidence".data, Json.num best.confidence),
            ("all_detections".data, Json.arr (all.map (fun d => Json.str d.text)))]

/-- The no-detection body of lines 146–150. -/
def noPlateJson : Json :=
  Json.obj [("success".data, Json.bool false),
            ("message".data, Json.str "No license plate detected".data),
            ("license_plate".data, Json.null)]

/-- The `/detect_plate` endpoint (lines 112–154). On a dict body:
missing `image` key → 400, failed decode → 400, otherwise run the pipeline
and answer 200. On other bodies, `'image' not in data` either fails the
membership test (str/list bodies without the key → 400) or raises
(`data['image']` on a str/list, `in` on null/bool/num → caught → 500). -/
def detect_plate (env : Env) (body : Json) : Result :=
  match body with
  | Json.obj kvs =>
    match pyDictGet kvs "image".data with
    | none => Result.clientError "No image provided".data
    | some v =>
      match env.decodeImage v with
      | none => Result.clientError "Invalid image format".data
      | some img =>
        match maxByConfidence (allDetections env img) with
        | some best => Result.ok (detectSuccessJson best (allDetections env img))
        | none => Result.ok noPlateJson
  | Json.str s =>
    if containsSub "image".data s then Result.serverError
    else Result.clientError "No image provided".data
  | Json.arr xs =>
    if xs.any (fun x => match x with | Json.str t => t == "image".data | _ => false)
    then Result.serverError
    else Result.clientError "No image provided".data
  | _ => Result.serverError

/-- **C7.** A request whose image decodes but whose regions yield zero
candidates gets the normal 200 response with success `false` and
`license_plate` null — never an error. -/
theorem c7_no_candidates_success_false (env : Env) (kvs : List (PyStr × Json))
    (v : Json) (img : Img)
    (h1 : pyDictGet kvs "image".data = some v)
    (h2 : env.decodeImage v = some img)
    (h3 : allDetections env img = []) :
    detect_plate env (Json.obj kvs) = Result.ok noPlateJson ∧
    statusOf (detect_plate env (Json.obj kvs)) = 200 := by
  have heq : detect_plate env (Json.obj kvs) = Result.ok noPlateJson := by
    simp only [detect_plate, h1, h2, h3, maxByConfidence]
  exact ⟨heq, by rw [heq]; rfl⟩

/-- A concrete environment: model loaded, inference and OCR succeed with
empty result lists, decoding always yields an empty image. -/
def sampleEnv : Env :=
  ⟨true, fun _ => some [], fun _ => some [], fun _ => some ⟨[]⟩⟩

/-- Closed instance of `c7_no_candidates_success_false` in `sampleEnv`. -/
theorem c7_no_candidates_success_false_witness :
    pyDictGet [("image".data, Json.str [])] "image".data = some (Json.str []) ∧
    sampleEnv.decodeImage (Json.str []) = some ⟨[]⟩ ∧
    allDetections sampleEnv ⟨[]⟩ = [] ∧
    detect_plate sampleEnv (Json.obj [("image".data, Json.str [])]) =
      Result.ok noPlateJson ∧
    statusOf (detect_plate sampleEnv (Json.obj [("image".data, Json.str [])])) = 200 :=
  ⟨rfl, rfl, rfl,
   c7_no_candidates_success_false sampleEnv [("image".data, Json.str [])]
     (Json.str []) ⟨[]⟩ rfl rfl rfl⟩

/-- **C9.** On a dict body, a missing `image` field or an image value that
fails to decode yields a 400 with a descriptive message, never a 500. -/
theorem c9_bad_input_400 (env : Env) (kvs : List (PyStr × Json)) :
    (pyDictGet kvs "image".data = none →
      detect_plate env (Json.obj kvs) =
        Result.clientError "No image provided".data ∧
      statusOf (detect_plate env (Json.obj kvs)) = 400) ∧
    (∀ v, pyDictGet kvs "image".data = some v → env.decodeImage v = none →
      detect_plate env (Json.obj kvs) =
        Result.clientError "Invalid image format".data ∧
      statusOf (detect_plate env (Json.obj kvs)) = 400) := by
  constructor
  · intro h
    have heq : detect_plate env (Json.obj kvs) =
        Result.clientError "No image provided".data := by
      simp only [detect_plate, h]
    exact ⟨heq, by rw [heq]; rfl⟩
  · intro v hv hdec
    have heq : detect_plate env (Json.obj kvs) =
        Result.clientError "Invalid image format".data := by
      simp only [detect_plate, hv, hdec]
    exact ⟨heq, by rw [heq]; rfl⟩

/-- Closed instance of `c9_bad_input_400`: the empty JSON object has no
`image` field and gets the 400. -/
theorem c9_bad_input_400_witness :
    pyDictGet [] "image".data = none ∧
    detect_plate sampleEnv (Json.obj []) =
      Result.clientError "No image provided".data ∧
    statusOf (detect_plate sampleEnv (Json.obj [])) = 400 :=
  ⟨rfl, (c9_bad_input_400 sampleEnv []).1 rfl⟩

/-- The outcome of one `/speak` call: the HTTP result together with the set
of temporary audio files existing on disk after the response completes. -/
structure SpeakOutcome where
  response : Result
  tempFilesAfter : List Nat

/-- The `/speak` endpoint (lines 197–217) for a string `text` value
(`data.get('text', '')`; an absent field is the empty string). `tempFiles`
is the set of temp files before the call, `fresh` the path the OS hands to
`tempfile.NamedTemporaryFile`. The gTTS synthesis and the `send_file` are
modelled as succeeding. Because the file is created with `delete=False` and
nothing ever removes it, a successful call leaves `fresh` on disk. -/
def speak (text : PyStr) (tempFiles : List Nat) (fresh : Nat) : SpeakOutcome :=
  if text = [] then
    ⟨Result.clientError "No text provided".data, tempFiles⟩
  else
    ⟨Result.fileResponse fresh "audio/mpeg".data "speech.mp3".data,
     tempFiles ++ [fresh]⟩

/-- **C8**, evaluated: empty text gets the 400, and non-empty text gets the
audio stream — but the freshly created temporary file is still on disk after
the response, contradicting the claim's no-residual-file clause (the
`NamedTemporaryFile` is opened with `delete=False` and never removed). -/
theorem c8_speak_leaves_temp_file :
    (speak [] [] 0).response = Result.clientError "No text provided".data ∧
    statusOf (speak [] [] 0).response = 400 ∧
    (speak "hello".data [] 0).response =
      Result.fileResponse 0 "audio/mpeg".data "speech.mp3".data ∧
    (speak "hello".data [] 0).tempFilesAfter = [0] := by
  refine ⟨rfl, rfl, rfl, rfl⟩
